import Mathlib

/-!
Shallow embedding of the Rock-Paper-Scissors gesture frontend.

The polling-variant React component (`Home` in the web sources) is embedded as a
state record `HomeState` together with pure handler functions: the one-second
poll callback, the button handlers (`startGame`, `setDifficulty`, `resetGame`,
the page-navigation clicks) and the video `img` `onError` handler.  Network
effects are represented by the `Request` a handler issues and a boolean telling
whether the `fetch` completed without throwing; a poll outcome is a
`PollResult`.  The `setInterval`/`clearInterval` pair used by the poll effect is
embedded as a small scheduler state `Sched`.

The client-only variant's gesture classifier and round resolution are not part
of the sources here; those definitions are modelled from the spec and marked as
such in their doc comments.
-/

namespace RPS

/-- Gesture enumeration: one of Rock, Paper, Scissors, Unknown. -/
inductive Gesture
  | Rock
  | Paper
  | Scissors
  | Unknown
  deriving DecidableEq, Fintype

/-- Modelled from the spec: the client-only variant's finger-extension counter is
absent from the sources (only the README describes the classifier).  Per spec
section 4.1 the classifier counts extended fingers; each extended finger
contributes one. -/
def countExtended (thumb index middle ring pinky : Bool) : Nat :=
  (if thumb then 1 else 0) + (if index then 1 else 0) + (if middle then 1 else 0) +
    (if ring then 1 else 0) + (if pinky then 1 else 0)

/-- Modelled from the spec: the client-only gesture classifier (spec section
4.1): zero extended fingers give Rock, five give Paper, exactly two with index
and middle extended give Scissors, any other count gives Unknown. -/
def classifyGesture (thumb index middle ring pinky : Bool) : Gesture :=
  let c := countExtended thumb index middle ring pinky
  if c = 0 then Gesture.Rock
  else if c = 5 then Gesture.Paper
  else if c = 2 ∧ index = true ∧ middle = true then Gesture.Scissors
  else Gesture.Unknown

/-- Modelled from the spec: an Unknown classification makes no new
classification and the prior state is retained (spec sections 4.1 and 8). -/
def applyClassified (prior : Gesture) (thumb index middle ring pinky : Bool) : Gesture :=
  let g := classifyGesture thumb index middle ring pinky
  if g = Gesture.Unknown then prior else g

/-- A locked move: one of the three non-Unknown gestures. -/
inductive Move
  | Rock
  | Paper
  | Scissors
  deriving DecidableEq, Fintype

/-- Result of one round, seen from the player. -/
inductive RoundOutcome
  | playerWin
  | computerWin
  | draw
  deriving DecidableEq, Fintype

/-- Modelled from the spec: the client-only round resolution is absent from the
sources.  Per spec section 4.2, Rock beats Scissors, Scissors beats Paper and
Paper beats Rock. -/
def beats : Move → Move → Bool
  | Move.Rock, Move.Scissors => true
  | Move.Scissors, Move.Paper => true
  | Move.Paper, Move.Rock => true
  | _, _ => false

/-- Modelled from the spec: round outcome (spec section 4.2): equal choices give
a draw, otherwise the beats-relation decides the winner. -/
def outcome (player computer : Move) : RoundOutcome :=
  if player = computer then RoundOutcome.draw
  else if beats player computer then RoundOutcome.playerWin
  else RoundOutcome.computerWin

/-- The strict opposite of a round outcome: the two win outcomes swap, a draw is
its own opposite. -/
def oppositeOutcome : RoundOutcome → RoundOutcome
  | RoundOutcome.playerWin => RoundOutcome.computerWin
  | RoundOutcome.computerWin => RoundOutcome.playerWin
  | RoundOutcome.draw => RoundOutcome.draw

/-- One entry of the backend's round history, as rendered by `ResultsPage`. -/
structure RoundRecord where
  round : Nat
  user_choice : String
  computer_choice : String
  result : String
  deriving DecidableEq

/-- The backend's `game_status` object, as read by the component: scores, round
counters, completion flag, overall winner and round history. -/
structure GameStatus where
  player_score : Nat
  computer_score : Nat
  round : Nat
  max_rounds : Nat
  game_completed : Bool
  game_winner : Option String
  round_history : List RoundRecord
  deriving DecidableEq

/-- The backend state snapshot returned by GET /state, as read by the component.
Fields reached through optional chaining in the source are `Option`s. -/
structure GameState where
  game_status : Option GameStatus
  countdown : Option Int
  armed : Bool
  game_started : Bool
  user_choice : Option String
  computer_choice : Option String
  winner : Option String
  deriving DecidableEq

/-- The React state of the polling-variant `Home` component: the four `useState`
hooks `error`, `gameState`, `selectedDifficulty`, `currentPage`. -/
structure HomeState where
  error : String
  gameState : Option GameState
  selectedDifficulty : String
  currentPage : String
  deriving DecidableEq

/-- Initial component state: `useState('')`, `useState(null)`, `useState('Easy')`,
`useState('welcome')`. -/
def initState : HomeState :=
  { error := "", gameState := none, selectedDifficulty := "Easy", currentPage := "welcome" }

/-- Outcome of one poll of GET /state: either the fetch (or JSON parse) threw,
or a response arrived with its `ok` flag and parsed body. -/
inductive PollResult
  | fail
  | resp (ok : Bool) (data : GameState)
  deriving DecidableEq

/-- The truthiness of `data.game_status?.game_completed`: false when
`game_status` is absent. -/
def gameCompleted (data : GameState) : Bool :=
  match data.game_status with
  | some gs => gs.game_completed
  | none => false

/-- The poll callback body: on a thrown fetch nothing happens; on an ok response
the parsed body is stored via `setGameState`, and if the body reports the game
completed while the current page is gameplay, the page is set to results; a
non-ok response is ignored. -/
def pollCallback (s : HomeState) (r : PollResult) : HomeState :=
  match r with
  | PollResult.fail => s
  | PollResult.resp ok data =>
      if ok then
        if gameCompleted data = true ∧ s.currentPage = "gameplay" then
          { s with gameState := some data, currentPage := "results" }
        else { s with gameState := some data }
      else s

/-- Did the poll return an ok response whose body reports the game completed? -/
def pollOkCompleted : PollResult → Bool
  | PollResult.resp true data => gameCompleted data
  | _ => false

/-- Did the poll fail: the fetch threw, or the response was not ok? -/
def pollFailed : PollResult → Bool
  | PollResult.fail => true
  | PollResult.resp ok _ => !ok

/-- An HTTP request issued by a handler. -/
structure Request where
  method : String
  url : String
  deriving DecidableEq

/-- The backend base URL used by every fetch in the component. -/
def baseUrl : String := "http://127.0.0.1:5002"

/-- The `startGame` handler: POST /start, no state change whether or not the
fetch throws. -/
def startGame (s : HomeState) : HomeState × Request :=
  (s, { method := "POST", url := baseUrl ++ "/start" })

/-- JavaScript `toLowerCase` on the ASCII level names used here. -/
def toLowerCase (str : String) : String := String.mk (str.data.map Char.toLower)

/-- The `setDifficulty` handler: POST /difficulty/{level.toLowerCase()}; when
the fetch completes without throwing, the cached selection becomes `level`,
otherwise the catch block leaves the state unchanged. -/
def setDifficulty (s : HomeState) (level : String) (fetchOk : Bool) : HomeState × Request :=
  ((if fetchOk then { s with selectedDifficulty := level } else s),
   { method := "POST", url := baseUrl ++ "/difficulty/" ++ toLowerCase level })

/-- The `resetGame` handler: POST /reset; when the fetch completes without
throwing, the page becomes welcome, otherwise the catch block leaves the state
unchanged. -/
def resetGame (s : HomeState) (fetchOk : Bool) : HomeState × Request :=
  ((if fetchOk then { s with currentPage := "welcome" } else s),
   { method := "POST", url := baseUrl ++ "/reset" })

/-- The difficulty levels offered by `DifficultyPage`. -/
def difficultyLevels : List String := ["Easy", "Medium", "Hard"]

/-- The gameplay video `img` `onError` handler: sets the inline error message,
touching nothing else. -/
def gameplayImgOnError (s : HomeState) : HomeState :=
  { s with error := "Cannot connect to camera" }

/-- The React state of the simple stream-view variant (`web/src/Home.jsx`): a
single `error` string. -/
structure WebHomeState where
  error : String
  deriving DecidableEq

/-- The stream-view variant's `img` `onError` message text. -/
def webStreamErrorMsg : String :=
  "Can" ++ String.singleton (Char.ofNat 39) ++
    "t reach the Python stream at http://127.0.0.1:5002/video_feed"

/-- The stream-view variant's `img` `onError` handler. -/
def webImgOnError (s : WebHomeState) : WebHomeState :=
  { s with error := webStreamErrorMsg }

/-- The four views of the page router. -/
inductive PageView
  | welcome
  | difficulty
  | gameplay
  | results
  deriving DecidableEq

/-- The `pages` lookup object keyed by the current-page string. -/
def pages (p : String) : Option PageView :=
  if p = "welcome" then some PageView.welcome
  else if p = "difficulty" then some PageView.difficulty
  else if p = "gameplay" then some PageView.gameplay
  else if p = "results" then some PageView.results
  else none

/-- The render expression `pages[currentPage] || <WelcomePage />`. -/
def renderPage (s : HomeState) : PageView :=
  (pages s.currentPage).getD PageView.welcome

/-- The current-page value is one of the four page keys. -/
def pageOk (p : String) : Prop :=
  p = "welcome" ∨ p = "difficulty" ∨ p = "gameplay" ∨ p = "results"

/-- A browser timer scheduler: a fresh-id counter and the list of active
interval timers with their periods in milliseconds. -/
structure Sched where
  nextId : Nat
  active : List (Nat × Nat)
  deriving DecidableEq

/-- `setInterval`: registers one new interval timer with the given period and
returns its id. -/
def setInterval (S : Sched) (periodMs : Nat) : Nat × Sched :=
  (S.nextId, { nextId := S.nextId + 1, active := S.active ++ [(S.nextId, periodMs)] })

/-- `clearInterval`: removes every active timer with the given id. -/
def clearInterval (S : Sched) (id : Nat) : Sched :=
  { S with active := S.active.filter (fun e => e.1 != id) }

/-- The poll `useEffect` setup: one `setInterval(..., 1000)`. -/
def pollEffect (S : Sched) : Nat × Sched := setInterval S 1000

/-- The poll `useEffect` cleanup: `clearInterval(interval)` on unmount or on a
change of `currentPage`. -/
def pollEffectCleanup (S : Sched) (id : Nat) : Sched := clearInterval S id

/-- Can a timer with this id still fire in this scheduler state? -/
def canFire (S : Sched) (id : Nat) : Bool :=
  S.active.any (fun e => e.1 == id)

/-- Every event that can update the component state: the poll callback, the
`img` `onError`, and the user-initiated button handlers (each fetch-backed
handler carries whether its fetch completed without throwing). -/
inductive Ev
  | poll (r : PollResult)
  | imgError
  | clickStartChallenge
  | clickBack
  | clickStartGame
  | clickSettings
  | clickStartRound
  | clickDifficulty (level : String) (fetchOk : Bool)
  | clickMainMenu (fetchOk : Bool)
  | clickPlayAgain (fetchOk : Bool)
  | playAgainNav
  deriving DecidableEq

/-- The state transition performed by each event, read off the handlers and the
inline `setCurrentPage` calls of the component. -/
def step (s : HomeState) : Ev → HomeState
  | Ev.poll r => pollCallback s r
  | Ev.imgError => gameplayImgOnError s
  | Ev.clickStartChallenge => { s with currentPage := "difficulty" }
  | Ev.clickBack => { s with currentPage := "welcome" }
  | Ev.clickStartGame => { s with currentPage := "gameplay" }
  | Ev.clickSettings => { s with currentPage := "difficulty" }
  | Ev.clickStartRound => (startGame s).1
  | Ev.clickDifficulty level fetchOk => (setDifficulty s level fetchOk).1
  | Ev.clickMainMenu fetchOk => (resetGame s fetchOk).1
  | Ev.clickPlayAgain fetchOk => (resetGame s fetchOk).1
  | Ev.playAgainNav => { s with currentPage := "difficulty" }

/-- Run a sequence of events from a state. -/
def run (s : HomeState) (evs : List Ev) : HomeState := evs.foldl step s

/-- A sample completed backend snapshot, used to instantiate theorems. -/
def sampleStatus : GameStatus :=
  { player_score := 2, computer_score := 1, round := 3, max_rounds := 3,
    game_completed := true, game_winner := some "Player Wins", round_history := [] }

/-- A sample backend state reporting the game completed. -/
def sampleCompleted : GameState :=
  { game_status := some sampleStatus, countdown := none, armed := false,
    game_started := false, user_choice := none, computer_choice := none, winner := none }

/-- The component state while the gameplay page is shown. -/
def gameplayState : HomeState := { initState with currentPage := "gameplay" }

/-- The current page after a poll: results exactly when an ok response reports
the game completed while the gameplay page is shown, otherwise unchanged. -/
theorem pollCallback_currentPage (s : HomeState) (r : PollResult) :
    (pollCallback s r).currentPage =
      if pollOkCompleted r = true ∧ s.currentPage = "gameplay" then "results"
      else s.currentPage := by
  cases r with
  | fail => simp [pollCallback, pollOkCompleted]
  | resp ok data =>
    cases ok with
    | false => simp [pollCallback, pollOkCompleted]
    | true =>
      by_cases h : gameCompleted data = true ∧ s.currentPage = "gameplay"
      · simp [pollCallback, pollOkCompleted, h]
      · simp [pollCallback, pollOkCompleted, h]

/-- A cleared timer id matches no remaining active entry. -/
theorem any_filter_ne (l : List (Nat × Nat)) (id : Nat) :
    (List.filter (fun e => e.1 != id) l).any (fun e => e.1 == id) = false := by
  induction l with
  | nil => rfl
  | cons a t ih =>
    by_cases h : a.1 = id
    · simp [List.filter_cons, h, ih]
    · simp [List.filter_cons, h, ih]

/-- Every event of the component keeps the current page inside the four page
keys. -/
theorem step_pageOk (s : HomeState) (e : Ev) (h : pageOk s.currentPage) :
    pageOk (step s e).currentPage := by
  cases e with
  | poll r =>
    show pageOk (pollCallback s r).currentPage
    rw [pollCallback_currentPage]
    split
    · exact Or.inr (Or.inr (Or.inr rfl))
    · exact h
  | imgError => exact h
  | clickStartChallenge => exact Or.inr (Or.inl rfl)
  | clickBack => exact Or.inl rfl
  | clickStartGame => exact Or.inr (Or.inr (Or.inl rfl))
  | clickSettings => exact Or.inr (Or.inl rfl)
  | clickStartRound => exact h
  | clickDifficulty level fetchOk => cases fetchOk <;> exact h
  | clickMainMenu fetchOk =>
    cases fetchOk with
    | false => exact h
    | true => exact Or.inl rfl
  | clickPlayAgain fetchOk =>
    cases fetchOk with
    | false => exact h
    | true => exact Or.inl rfl
  | playAgainNav => exact Or.inr (Or.inl rfl)

/-- Running any event sequence keeps the current page inside the four page
keys. -/
theorem run_pageOk (evs : List Ev) (s : HomeState) (h : pageOk s.currentPage) :
    pageOk (run s evs).currentPage := by
  induction evs generalizing s with
  | nil => exact h
  | cons e t ih => exact ih (step s e) (step_pageOk s e h)

/-- The page lookup succeeds on each of the four page keys. -/
theorem pages_isSome_of_pageOk (p : String) (h : pageOk p) :
    (pages p).isSome = true := by
  rcases h with h | h | h | h <;> subst h <;> decide

/-- C4: the round-outcome function is total over the three moves:
outcome(Rock,Scissors), outcome(Scissors,Paper) and outcome(Paper,Rock) are
player wins, outcome(X,X) is a draw for every X, and for every pair A ≠ B the
outcome of (A,B) is the strict opposite of the outcome of (B,A). -/
theorem outcome_spec :
    outcome Move.Rock Move.Scissors = RoundOutcome.playerWin ∧
    outcome Move.Scissors Move.Paper = RoundOutcome.playerWin ∧
    outcome Move.Paper Move.Rock = RoundOutcome.playerWin ∧
    (∀ x : Move, outcome x x = RoundOutcome.draw) ∧
    (∀ a b : Move, a ≠ b →
      outcome a b ≠ RoundOutcome.draw ∧
      outcome a b = oppositeOutcome (outcome b a)) := by
  decide

/-- C4 witness: the theorem applied at the concrete pair (Rock, Paper). -/
theorem outcome_spec_witness :
    outcome Move.Rock Move.Paper = oppositeOutcome (outcome Move.Paper Move.Rock) :=
  (outcome_spec.2.2.2.2 Move.Rock Move.Paper (by decide)).2

/-- C5: the gesture classifier maps a finger-extension count of zero to Rock,
five to Paper, exactly two with index and middle extended to Scissors, and any
other count to Unknown, in which case no new classification is made and the
prior state is retained. -/
theorem classifyGesture_spec :
    (∀ t i m r p : Bool, countExtended t i m r p = 0 →
      classifyGesture t i m r p = Gesture.Rock) ∧
    (∀ t i m r p : Bool, countExtended t i m r p = 5 →
      classifyGesture t i m r p = Gesture.Paper) ∧
    (∀ t i m r p : Bool, countExtended t i m r p = 2 → i = true → m = true →
      classifyGesture t i m r p = Gesture.Scissors) ∧
    (∀ t i m r p : Bool, countExtended t i m r p ≠ 0 → countExtended t i m r p ≠ 5 →
      ¬(countExtended t i m r p = 2 ∧ i = true ∧ m = true) →
      classifyGesture t i m r p = Gesture.Unknown) ∧
    (∀ (prior : Gesture) (t i m r p : Bool),
      classifyGesture t i m r p = Gesture.Unknown →
      applyClassified prior t i m r p = prior) := by
  decide

/-- C5 witness: the theorem applied at the all-fingers-down hand. -/
theorem classifyGesture_spec_witness :
    classifyGesture false false false false false = Gesture.Rock :=
  classifyGesture_spec.1 false false false false false (by decide)

/-- C1: the only automatic page transition is gameplay to results: every poll
response sets the current page to results exactly when the response is ok, its
game status reports the game completed, and the current page is gameplay;
otherwise the poll leaves the page unchanged, and the only other non-user event,
the video error handler, never changes the page. -/
theorem poll_auto_transition (s : HomeState) (r : PollResult) :
    ((pollCallback s r).currentPage =
      if pollOkCompleted r = true ∧ s.currentPage = "gameplay" then "results"
      else s.currentPage) ∧
    (gameplayImgOnError s).currentPage = s.currentPage :=
  ⟨pollCallback_currentPage s r, rfl⟩

/-- C1 witness: the theorem applied on the gameplay page to an ok response
reporting the game completed. -/
theorem poll_auto_transition_witness :
    (pollCallback gameplayState (PollResult.resp true sampleCompleted)).currentPage =
      "results" :=
  (poll_auto_transition gameplayState (PollResult.resp true sampleCompleted)).1.trans
    (by decide)

/-- C2 fails as stated: an ok poll response handled while the view is not the
gameplay page still changes the component state, because the response body is
stored unconditionally. -/
theorem poll_stale_response_changes_state :
    initState.currentPage ≠ "gameplay" ∧
    pollCallback initState (PollResult.resp true sampleCompleted) ≠ initState := by
  decide

/-- C2 (amended): a poll response handled after the view has moved off the
gameplay page changes neither the current page, nor the selected difficulty, nor
the error message; but an ok response still replaces the stored game state with
the response body, and only a failed or non-ok poll leaves the state fully
unchanged. -/
theorem poll_response_after_view_change (s : HomeState) (r : PollResult)
    (h : s.currentPage ≠ "gameplay") :
    (pollCallback s r).currentPage = s.currentPage ∧
    (pollCallback s r).selectedDifficulty = s.selectedDifficulty ∧
    (pollCallback s r).error = s.error ∧
    (pollCallback s r = s ∨
      ∃ d, r = PollResult.resp true d ∧
        pollCallback s r = { s with gameState := some d }) := by
  cases r with
  | fail => exact ⟨rfl, rfl, rfl, Or.inl rfl⟩
  | resp ok data =>
    cases ok with
    | false => exact ⟨rfl, rfl, rfl, Or.inl rfl⟩
    | true =>
      have hc : ¬(gameCompleted data = true ∧ s.currentPage = "gameplay") :=
        fun hh => h hh.2
      have he : pollCallback s (PollResult.resp true data) =
          { s with gameState := some data } := by
        simp [pollCallback, hc]
      rw [he]
      exact ⟨rfl, rfl, rfl, Or.inr ⟨data, rfl, rfl⟩⟩

/-- C2 witness: the amended theorem applied on the welcome page to an ok
response. -/
theorem poll_response_after_view_change_witness :
    (pollCallback initState (PollResult.resp true sampleCompleted)).currentPage =
      initState.currentPage :=
  (poll_response_after_view_change initState (PollResult.resp true sampleCompleted)
    (by decide)).1

/-- C3: a failed poll (the fetch threw, or the response was not ok) leaves the
whole component state unchanged: same stored game state, same current page, same
selected difficulty, and the same error message, so no user-visible error is
produced. -/
theorem poll_failure_no_change (s : HomeState) (r : PollResult)
    (h : pollFailed r = true) :
    pollCallback s r = s := by
  cases r with
  | fail => rfl
  | resp ok data =>
    cases ok with
    | false => rfl
    | true => simp [pollFailed] at h

/-- C3 witness: the theorem applied to a thrown fetch in the initial state. -/
theorem poll_failure_no_change_witness :
    pollCallback initState PollResult.fail = initState :=
  poll_failure_no_change initState PollResult.fail rfl

/-- C6 fails as stated: when the POST /difficulty fetch throws, the cached
selection does not become the chosen level; the request is still issued with the
lowercased path segment. -/
theorem setDifficulty_claim_counterexample :
    (setDifficulty initState "Hard" false).1.selectedDifficulty = "Easy" ∧
    "Easy" ≠ "Hard" ∧
    (setDifficulty initState "Hard" false).2 =
      { method := "POST", url := "http://127.0.0.1:5002/difficulty/hard" } := by
  decide

/-- C6 (amended): selecting a level from the difficulty page issues a POST to
/difficulty/{level} with the lowercase path segment (one of easy, medium, hard);
the cached selected difficulty becomes the level when the fetch completes
without throwing, and the state is unchanged when it throws. -/
theorem setDifficulty_spec (s : HomeState) (level : String) (fetchOk : Bool)
    (h : level ∈ difficultyLevels) :
    (setDifficulty s level fetchOk).2 =
      { method := "POST", url := baseUrl ++ "/difficulty/" ++ toLowerCase level } ∧
    toLowerCase level ∈ (["easy", "medium", "hard"] : List String) ∧
    (setDifficulty s level fetchOk).1 =
      (if fetchOk then { s with selectedDifficulty := level } else s) := by
  refine ⟨rfl, ?_, rfl⟩
  simp only [difficultyLevels, List.mem_cons, List.not_mem_nil, or_false] at h
  rcases h with rfl | rfl | rfl <;> decide

/-- C6 witness: the amended theorem applied to a successful selection of
Easy. -/
theorem setDifficulty_spec_witness :
    (setDifficulty initState "Easy" true).1 =
      { initState with selectedDifficulty := "Easy" } :=
  (setDifficulty_spec initState "Easy" true (by decide)).2.2

/-- C7: a video stream load failure only sets the inline error text: the stored
game state, the selected difficulty and the current page are unchanged, the same
view is rendered, and in the stream-view variant the handler likewise only sets
its inline message. -/
theorem video_error_inline (s : HomeState) (w : WebHomeState) :
    (gameplayImgOnError s).error = "Cannot connect to camera" ∧
    (gameplayImgOnError s).gameState = s.gameState ∧
    (gameplayImgOnError s).selectedDifficulty = s.selectedDifficulty ∧
    (gameplayImgOnError s).currentPage = s.currentPage ∧
    renderPage (gameplayImgOnError s) = renderPage s ∧
    (webImgOnError w).error = webStreamErrorMsg :=
  ⟨rfl, rfl, rfl, rfl, rfl, rfl⟩

/-- C7 witness: the theorem applied in the initial states of both variants. -/
theorem video_error_inline_witness :
    (gameplayImgOnError initState).error = "Cannot connect to camera" :=
  (video_error_inline initState { error := "" }).1

/-- C8: the poll effect schedules exactly one interval timer, with a period of
1000 milliseconds, and after the effect cleanup clears that timer it can no
longer fire. -/
theorem poll_timer_lifecycle (S : Sched) :
    (pollEffect S).2.active = S.active ++ [((pollEffect S).1, 1000)] ∧
    canFire (pollEffectCleanup (pollEffect S).2 (pollEffect S).1) (pollEffect S).1 =
      false :=
  ⟨rfl, any_filter_ne _ _⟩

/-- C8 witness: the theorem applied to the empty scheduler. -/
theorem poll_timer_lifecycle_witness :
    canFire (pollEffectCleanup (pollEffect { nextId := 0, active := [] }).2 0) 0 =
      false :=
  (poll_timer_lifecycle { nextId := 0, active := [] }).2

/-- C9: resetGame is atomic on error: it issues POST /reset, the current page
becomes welcome exactly when the fetch completes without throwing, and on a
thrown fetch the whole state is unchanged. -/
theorem resetGame_atomic (s : HomeState) (fetchOk : Bool) :
    (resetGame s fetchOk).1 =
      (if fetchOk then { s with currentPage := "welcome" } else s) ∧
    (resetGame s fetchOk).2 = { method := "POST", url := baseUrl ++ "/reset" } :=
  ⟨rfl, rfl⟩

/-- C9 witness: the theorem applied to a thrown reset on the results page. -/
theorem resetGame_atomic_witness :
    (resetGame { initState with currentPage := "results" } false).1 =
      { initState with currentPage := "results" } :=
  (resetGame_atomic { initState with currentPage := "results" } false).1

/-- C10: the current page starts at welcome and, under every event sequence,
stays inside the four page keys, so the render-time page lookup always finds a
view and the WelcomePage fallback branch is unreachable. -/
theorem currentPage_invariant (evs : List Ev) :
    initState.currentPage = "welcome" ∧
    pageOk (run initState evs).currentPage ∧
    (pages (run initState evs).currentPage).isSome = true := by
  have h1 : pageOk (run initState evs).currentPage :=
    run_pageOk evs initState (Or.inl rfl)
  exact ⟨rfl, h1, pages_isSome_of_pageOk _ h1⟩

/-- C10 witness: the theorem applied to a concrete click sequence reaching the
gameplay page. -/
theorem currentPage_invariant_witness :
    pageOk (run initState [Ev.clickStartChallenge, Ev.clickStartGame]).currentPage :=
  (currentPage_invariant [Ev.clickStartChallenge, Ev.clickStartGame]).2.1

end RPS
